/-
  Verification of the ClickTime API client (clicktime.py).

  Shallow embedding: the Python class `ClickTime` is modelled as a family of
  pure Lean functions.  Network I/O is factored out: each public method is
  modelled as the pure computation it performs on its inputs and on the
  already-fetched (parsed) response data, so a method becomes a function from
  its arguments and the parsed server payload to its result.  Python runtime
  errors (TypeError, KeyError, NameError, ValueError, IndexError, the
  Python-2 StandardError) are modelled with an `Except PyErr` monad.
  JSON values are modelled by the inductive type `Json`; the external
  `json.loads` decoder is modelled as an abstract parameter
  `loads : String → Option Json` (returning `none` exactly on the strings the
  real decoder rejects), while `json.dumps` is modelled concretely by `dumps`.
-/
import Mathlib

namespace ClickTime

/-- Python runtime errors that the embedded code can raise. -/
inductive PyErr where
  | valueError
  | typeError
  | nameError (missing : String)
  | keyError (k : String)
  | indexError
  | attributeError
  | standardError (msg : String)
deriving DecidableEq, Repr

/-- JSON values as decoded by `json.loads` / encoded by `json.dumps`.
Numbers are restricted to integers (the payload fields the library touches
are strings and integers; the one float the library produces, `Hours`, is
threaded through as an opaque `Json` parameter and never inspected). -/
inductive Json where
  | null
  | bool (b : Bool)
  | num (n : Int)
  | str (s : String)
  | arr (xs : List Json)
  | obj (kvs : List (String × Json))

mutual

/-- Boolean equality of JSON values (deep, as Python `==` on decoded JSON). -/
def jsonBeq : Json → Json → Bool
  | Json.null, Json.null => true
  | Json.bool a, Json.bool b => a == b
  | Json.num a, Json.num b => a == b
  | Json.str a, Json.str b => a == b
  | Json.arr xs, Json.arr ys => jsonBeqL xs ys
  | Json.obj xs, Json.obj ys => jsonBeqO xs ys
  | _, _ => false

/-- Elementwise equality of JSON arrays. -/
def jsonBeqL : List Json → List Json → Bool
  | [], [] => true
  | x :: xs, y :: ys => jsonBeq x y && jsonBeqL xs ys
  | _, _ => false

/-- Pairwise equality of JSON object entry lists. -/
def jsonBeqO : List (String × Json) → List (String × Json) → Bool
  | [], [] => true
  | (k, v) :: xs, (l, w) :: ys => k == l && jsonBeq v w && jsonBeqO xs ys
  | _, _ => false

end

mutual

theorem jsonBeq_iff : (a b : Json) → (jsonBeq a b = true ↔ a = b)
  | Json.null, b => by cases b <;> simp [jsonBeq]
  | Json.bool a, b => by cases b <;> simp [jsonBeq]
  | Json.num a, b => by cases b <;> simp [jsonBeq]
  | Json.str a, b => by cases b <;> simp [jsonBeq]
  | Json.arr xs, Json.arr ys => by simp [jsonBeq, jsonBeqL_iff xs ys]
  | Json.arr xs, Json.null => by simp [jsonBeq]
  | Json.arr xs, Json.bool _ => by simp [jsonBeq]
  | Json.arr xs, Json.num _ => by simp [jsonBeq]
  | Json.arr xs, Json.str _ => by simp [jsonBeq]
  | Json.arr xs, Json.obj _ => by simp [jsonBeq]
  | Json.obj xs, Json.obj ys => by simp [jsonBeq, jsonBeqO_iff xs ys]
  | Json.obj xs, Json.null => by simp [jsonBeq]
  | Json.obj xs, Json.bool _ => by simp [jsonBeq]
  | Json.obj xs, Json.num _ => by simp [jsonBeq]
  | Json.obj xs, Json.str _ => by simp [jsonBeq]
  | Json.obj xs, Json.arr _ => by simp [jsonBeq]

theorem jsonBeqL_iff : (xs ys : List Json) → (jsonBeqL xs ys = true ↔ xs = ys)
  | [], [] => by simp [jsonBeqL]
  | x :: xs, y :: ys => by simp [jsonBeqL, jsonBeq_iff x y, jsonBeqL_iff xs ys]
  | [], _ :: _ => by simp [jsonBeqL]
  | _ :: _, [] => by simp [jsonBeqL]

theorem jsonBeqO_iff : (xs ys : List (String × Json)) → (jsonBeqO xs ys = true ↔ xs = ys)
  | [], [] => by simp [jsonBeqO]
  | (k, v) :: xs, (l, w) :: ys => by
      simp [jsonBeqO, jsonBeq_iff v w, jsonBeqO_iff xs ys, and_assoc]
  | [], _ :: _ => by simp [jsonBeqO]
  | _ :: _, [] => by simp [jsonBeqO]

end

instance : DecidableEq Json := fun a b =>
  decidable_of_iff (jsonBeq a b = true) (jsonBeq_iff a b)

/-- Python `str()` of a decoded JSON value, as applied by `__init__` to the
session values (`setattr(self, str(k), str(v))`).  Container values would be
rendered with Python's `repr`; the session payload holds scalars only, so the
container branches just need to be some fixed total rendering. -/
def pyStr : Json → String
  | Json.null => "None"
  | Json.bool true => "True"
  | Json.bool false => "False"
  | Json.num n => toString n
  | Json.str s => s
  | Json.arr _ => "<list>"
  | Json.obj _ => "<dict>"

/-- Association-list lookup standing for Python dict indexing/`has_key`;
dicts decoded from JSON have unique keys, which assoc lists represent. -/
def dictGet {α : Type} (d : List (String × α)) (k : String) : Option α :=
  d.lookup k

/-- Python `d[k] = v`: overwrite in place when the key exists, append
otherwise. -/
def dictSet {α : Type} (d : List (String × α)) (k : String) (v : α) :
    List (String × α) :=
  if (d.lookup k).isSome then
    d.map (fun kv => if kv.1 = k then (k, v) else kv)
  else
    d ++ [(k, v)]

/-- Python `d.update(e)`: set every pair of `e` in `d`, left to right. -/
def dictUpdate {α : Type} (d e : List (String × α)) : List (String × α) :=
  e.foldl (fun acc kv => dictSet acc kv.1 kv.2) d

/-- `ClickTime._parse` (clicktime.py lines 81-86).  `loads` models
`json.loads` (`none` = the decoder raises `ValueError`).  The except-branch
calls `logging.error`, but `import logging` is only executed inside the
`if __name__ == "__main__"` block (line 238), so when the module is imported
as a library the name `logging` is undefined and the branch raises
`NameError` instead of returning the default; `loggingDefined` records
whether that import has run. -/
def py_parse (loads : String → Option Json) (loggingDefined : Bool)
    (json_str : String) (default : Json) : Except PyErr Json :=
  match loads json_str with
  | some v => Except.ok v
  | none =>
      if loggingDefined then Except.ok default
      else Except.error (PyErr.nameError "logging")

/-- The attribute map `__init__` installs: every session pair, key and value
string-coerced (`setattr(self, str(k), str(v))`; keys of a decoded JSON
object are already strings). -/
def initAttrs (s : List (String × Json)) : List (String × String) :=
  s.map (fun kv => (kv.1, pyStr kv.2))

/-- `ClickTime.__init__` (lines 39-48), as a function of the parsed session
response (`None` or a decoded JSON object).  Returns the public attributes
set on the instance, or the `StandardError` raised. -/
def ct_init (session : Option (List (String × Json))) :
    Except PyErr (List (String × String)) :=
  match session with
  | Option.none =>
      Except.error (PyErr.standardError "Failure to establish session information")
  | some s =>
      if (dictGet s "CompanyID").isSome then
        Except.ok (initAttrs s)
      else
        Except.error (PyErr.standardError "Session information lacks CompanyID")

/-- Python's `%` string formatting restricted to `%s` specifiers, the only
ones the source uses.  Substituted values are not re-scanned.  A leftover
argument, or a specifier with no argument left, raises `TypeError`
("not all arguments converted during string formatting"). -/
def formatSS : List Char → List String → Except PyErr String
  | [], [] => Except.ok ""
  | [], _ :: _ => Except.error PyErr.typeError
  | '%' :: 's' :: rest, a :: args =>
      match formatSS rest args with
      | Except.ok t => Except.ok (a ++ t)
      | Except.error e => Except.error e
  | '%' :: 's' :: _, [] => Except.error PyErr.typeError
  | c :: rest, args =>
      match formatSS rest args with
      | Except.ok t => Except.ok (String.singleton c ++ t)
      | Except.error e => Except.error e

/-- `ClickTime.user` (lines 106-116): the URL computation
`"Companies/%s/Users/" % (company_id, user_id)` with the identifiers
defaulted from the instance attributes.  The format string has one `%s`
but receives a 2-tuple. -/
def user_url (selfCompanyID selfUserID : String)
    (company_id user_id : Option String) : Except PyErr String :=
  let cid := company_id.getD selfCompanyID
  let uid := user_id.getD selfUserID
  formatSS ("Companies/%s/Users/".data) [cid, uid]

/-- Python values a caller can pass for the `with_child_ids` argument. -/
inductive PyVal where
  | none
  | bool (b : Bool)
  | int (n : Int)
  | str (s : String)
deriving DecidableEq, Repr

/-- The numeric view Python uses when comparing: `True` is the integer 1 and
`False` the integer 0; strings and `None` are not numbers. -/
def pyNumView : PyVal → Option Int
  | PyVal.bool b => some (if b then 1 else 0)
  | PyVal.int n => some n
  | _ => Option.none

/-- Python `==` on the scalar values relevant here: numeric values compare by
value across `bool`/`int` (so `1 == True` but not `2 == True`), strings
compare as strings, `None` only equals `None`, and everything else is
unequal. -/
def pyEq (a b : PyVal) : Bool :=
  match pyNumView a, pyNumView b with
  | some x, some y => x == y
  | _, _ =>
      match a, b with
      | PyVal.str s, PyVal.str t => s == t
      | PyVal.none, PyVal.none => true
      | _, _ => false

/-- The `.../Jobs` URL prefix shared by `jobs` and `timeentires`
(`"Companies/%s/Users/%s/Jobs" % (self.CompanyID, self.UserID)`;
a `%`-format whose specifier and argument counts agree is plain
concatenation). -/
def jobs_base (cid uid : String) : String :=
  "Companies/" ++ cid ++ "/Users/" ++ uid ++ "/Jobs"

/-- The URL built by `ClickTime.jobs` (lines 145-147): the
`withChildIDs=true` query parameter is appended exactly when
`with_child_ids == True` in Python's `==` sense. -/
def jobs_url (cid uid : String) (with_child_ids : PyVal) : String :=
  if pyEq with_child_ids (PyVal.bool true) then
    jobs_base cid uid ++ "?withChildIDs=true"
  else
    jobs_base cid uid

/-- Python subscript `v[k]` on a decoded JSON value: a `KeyError` when the
key is absent from an object, a `TypeError` when `v` is not an object. -/
def getField (v : Json) (k : String) : Except PyErr Json :=
  match v with
  | Json.obj kvs =>
      match dictGet kvs k with
      | some x => Except.ok x
      | Option.none => Except.error (PyErr.keyError k)
  | _ => Except.error PyErr.typeError

/-- The shared lookup loop of `clients`/`jobs`/`tasks`: scan the parsed
collection for the first element whose `field` equals the identifier,
returning a singleton or, when the loop falls through, the empty list. -/
def filter_by (field : String) (idv : Json) : List Json → Except PyErr (List Json)
  | [] => Except.ok []
  | c :: rest =>
      match getField c field with
      | Except.error e => Except.error e
      | Except.ok v => if v = idv then Except.ok [c] else filter_by field idv rest

/-- `ClickTime.clients` (lines 118-134) as a function of the parsed
collection: no identifier returns it unfiltered, an identifier triggers the
scan on `ClientID`. -/
def clients (data : List Json) (client_id : Option Json) : Except PyErr (List Json) :=
  match client_id with
  | Option.none => Except.ok data
  | some cid => filter_by "ClientID" cid data

/-- `ClickTime.jobs` (lines 136-155), filtering step on `Number`. -/
def jobs (data : List Json) (job_number : Option Json) : Except PyErr (List Json) :=
  match job_number with
  | Option.none => Except.ok data
  | some n => filter_by "Number" n data

/-- `ClickTime.tasks` (lines 157-173), filtering step on `Code`. -/
def tasks (data : List Json) (task_number : Option Json) : Except PyErr (List Json) :=
  match task_number with
  | Option.none => Except.ok data
  | some c => filter_by "Code" c data

/-- Python list indexing `xs[i]`: `IndexError` out of range. -/
def pyIndex (xs : List Json) (i : Nat) : Except PyErr Json :=
  match xs[i]? with
  | some v => Except.ok v
  | Option.none => Except.error PyErr.indexError

/-- Outcome of the CLI `create_timeentry` resolution step:
either the resolved `(JobID, TaskID)` pair, a usage error raised through
`parser.error` (which exits the process), or a Python runtime error. -/
inductive CliErr where
  | parserError (msg : String)
  | pyErr (e : PyErr)
deriving DecidableEq, Repr

/-- The `create_timeentry` dispatch of the `__main__` harness
(lines 287-301), as a function of the two lookup results
`jobs = ct.jobs(job_number)` and `tasks = ct.tasks(task_number)`.
Note the source tests `len(jobs)` again in the task block (lines 296-298),
not `len(tasks)`, before taking `tasks[0]`. -/
def cli_resolve (jobsFound tasksFound : List Json) : Except CliErr (Json × Json) :=
  if jobsFound.length = 0 then
    Except.error (CliErr.parserError "Could not find job with number")
  else if 1 < jobsFound.length then
    Except.error (CliErr.parserError "Multiple jobs with number")
  else
    match (pyIndex jobsFound 0).bind (fun j => getField j "JobID") with
    | Except.error e => Except.error (CliErr.pyErr e)
    | Except.ok job_id =>
        if jobsFound.length = 0 then
          Except.error (CliErr.parserError "Could not find task with number")
        else if 1 < jobsFound.length then
          Except.error (CliErr.parserError "Multiple tasks with number")
        else
          match (pyIndex tasksFound 0).bind (fun t => getField t "TaskID") with
          | Except.error e => Except.error (CliErr.pyErr e)
          | Except.ok task_id => Except.ok (job_id, task_id)

/-- Header preparation of `ClickTime._get` (lines 50-57): the result is the
header dict actually sent together with the caller's mapping after the call
(`none` when no mapping was passed).  `if headers:` is Python truthiness, so
an empty dict takes the copy branch; a non-empty dict is updated in place
with the stored headers and used directly. -/
def get_headers (stored : List (String × String))
    (caller : Option (List (String × String))) :
    List (String × String) × Option (List (String × String)) :=
  match caller with
  | some h =>
      if h.isEmpty then (stored, some h)
      else (dictUpdate h stored, some (dictUpdate h stored))
  | Option.none => (stored, Option.none)

/-- The forced POST content type (line 73). -/
def postContentType : String := "application/json; charset=utf-8"

/-- Header preparation of `ClickTime._post` (lines 65-73): as `_get`, then
`headers["content-type"]` is set on whichever dict is in hand. -/
def post_headers (stored : List (String × String))
    (caller : Option (List (String × String))) :
    List (String × String) × Option (List (String × String)) :=
  match caller with
  | some h =>
      if h.isEmpty then (dictSet stored "content-type" postContentType, some h)
      else
        (dictSet (dictUpdate h stored) "content-type" postContentType,
         some (dictSet (dictUpdate h stored) "content-type" postContentType))
  | Option.none => (dictSet stored "content-type" postContentType, Option.none)

/-- A calendar date (the `datetime` values the library manipulates are used
at midnight only, so the date part suffices). -/
structure Date where
  y : Nat
  m : Nat
  d : Nat
deriving DecidableEq, Repr

/-- Gregorian leap year. -/
def isLeap (y : Nat) : Bool :=
  (y % 4 == 0 && y % 100 != 0) || y % 400 == 0

/-- Number of days of month `m` of year `y`. -/
def daysInMonth (y m : Nat) : Nat :=
  if m = 2 then (if isLeap y then 29 else 28)
  else if m = 4 ∨ m = 6 ∨ m = 9 ∨ m = 11 then 30
  else 31

/-- Days in year `y` strictly before month `m`. -/
def daysBeforeMonth (y m : Nat) : Nat :=
  ((List.range (m - 1)).map (fun i => daysInMonth y (i + 1))).sum

/-- Proleptic-Gregorian ordinal day of a date; `datetime` subtraction of two
midnight values compares as the difference of these ordinals. -/
def toDays (dt : Date) : Int :=
  let py : Int := (dt.y : Int) - 1
  365 * py + py / 4 - py / 100 + py / 400 + daysBeforeMonth dt.y dt.m + dt.d

/-- Decimal digit character of `n % 10`. -/
def digitChar (n : Nat) : Char :=
  Char.ofNat (48 + n % 10)

/-- Numeric value of a digit character. -/
def digitVal (c : Char) : Nat := c.toNat - 48

/-- Two-digit zero-padded decimal rendering (strftime `%m`, `%d`). -/
def pad2 (n : Nat) : String :=
  String.mk [digitChar (n / 10), digitChar n]

/-- Four-digit zero-padded decimal rendering (strftime `%Y` for the years
Python 2 accepts). -/
def pad4 (n : Nat) : String :=
  String.mk [digitChar (n / 1000), digitChar (n / 100), digitChar (n / 10), digitChar n]

/-- `datetime.strftime("%Y%m%d")`: Python 2 refuses years before 1900 with a
`ValueError`. -/
def strftimeYMD (dt : Date) : Except PyErr String :=
  if dt.y < 1900 then Except.error PyErr.valueError
  else Except.ok (pad4 dt.y ++ pad2 dt.m ++ pad2 dt.d)

/-- `datetime.strptime(s, "%Y%m%d")`: eight digits, month and day validated
against the calendar; anything else raises `ValueError`. -/
def strptimeYMD (s : String) : Except PyErr Date :=
  match s.data with
  | [a, b, c, d, e, f, g, h] =>
      if (a.isDigit && b.isDigit && c.isDigit && d.isDigit &&
          e.isDigit && f.isDigit && g.isDigit && h.isDigit) then
        let y := ((digitVal a * 10 + digitVal b) * 10 + digitVal c) * 10 + digitVal d
        let m := digitVal e * 10 + digitVal f
        let dd := digitVal g * 10 + digitVal h
        if 1 ≤ m ∧ m ≤ 12 ∧ 1 ≤ dd ∧ dd ≤ daysInMonth y m then
          Except.ok ⟨y, m, dd⟩
        else Except.error PyErr.valueError
      else Except.error PyErr.valueError
  | _ => Except.error PyErr.valueError

/-- A date argument as the library accepts it: a `YYYYMMDD` string or a
native date value. -/
inductive PyDateArg where
  | str (s : String)
  | date (d : Date)
deriving DecidableEq, Repr

/-- The per-argument normalisation of `timeentires`/`create_timeentry`:
strings go through `strptime`, date values pass through. -/
def resolveArg : PyDateArg → Except PyErr Date
  | PyDateArg.str s => strptimeYMD s
  | PyDateArg.date d => Except.ok d

/-- A date argument in the documented domain: it resolves, and to a year
Python 2's `strftime` accepts. -/
def validArg (a : PyDateArg) : Bool :=
  match resolveArg a with
  | Except.ok d => decide (1900 ≤ d.y)
  | Except.error _ => false

/-- `ClickTime.timeentires` (lines 175-198) up to the network call: the URL
requested, or the error raised while building it.  The `_get` only happens
once this computation returns `ok`, so every error here precedes any
network request. -/
def timeentires_url (cid uid : String) (startdate enddate : Option PyDateArg) :
    Except PyErr String := do
  let url := jobs_base cid uid
  let sd ← match startdate with
    | some a => Except.map some (resolveArg a)
    | Option.none => Except.ok Option.none
  let ed ← match enddate with
    | some a => Except.map some (resolveArg a)
    | Option.none => Except.ok Option.none
  match sd, ed with
  | some s, Option.none => do
      let fs ← strftimeYMD s
      Except.ok (url ++ "?date=" ++ fs)
  | some s, some e => do
      if toDays e - toDays s > (7 : Int) then
        Except.error PyErr.valueError
      else
        let fs ← strftimeYMD s
        let fe ← strftimeYMD e
        Except.ok (url ++ "?startdate=" ++ fs ++ "&enddate=" ++ fe)
  | Option.none, some _ => Except.error PyErr.valueError
  | Option.none, Option.none => Except.ok url

/-- The spec's error condition for `timeentries`, written from the spec's
words: an end date without a start date, or a supplied range whose length
exceeds 7 days. -/
def timeentriesRaisesSpec (startdate enddate : Option PyDateArg) : Bool :=
  match startdate, enddate with
  | Option.none, some _ => true
  | some s, some e =>
      match resolveArg s, resolveArg e with
      | Except.ok ds, Except.ok de => decide (toDays de - toDays ds > (7 : Int))
      | _, _ => false
  | _, _ => false

/-- Lower-case hexadecimal digit. -/
def hexDigit (n : Nat) : Char :=
  if n % 16 < 10 then digitChar (n % 16) else Char.ofNat (87 + n % 16)

/-- Four-digit hexadecimal rendering, as in a JSON `\uXXXX` escape. -/
def hex4 (n : Nat) : String :=
  String.mk [hexDigit (n / 4096), hexDigit (n / 256), hexDigit (n / 16), hexDigit n]

/-- `json.dumps` escaping of one character (default `ensure_ascii` mode). -/
def escapeChar (c : Char) : String :=
  if c = '"' then "\\\""
  else if c = '\\' then "\\\\"
  else if c = Char.ofNat 8 then "\\b"
  else if c = Char.ofNat 9 then "\\t"
  else if c = Char.ofNat 10 then "\\n"
  else if c = Char.ofNat 12 then "\\f"
  else if c = Char.ofNat 13 then "\\r"
  else if c.toNat < 32 then "\\u" ++ hex4 c.toNat
  else if c.toNat < 127 then String.singleton c
  else "\\u" ++ hex4 (c.toNat % 65536)

/-- `json.dumps` escaping of a string body. -/
def escapeStr (s : String) : String :=
  String.join (s.data.map escapeChar)

mutual

/-- `json.dumps` with Python 2's default separators `", "` and `": "`
(object entries serialized in the model's insertion order; the claims below
only inspect individual `"key": value` fragments, which Python produces
identically in any order). -/
def dumps : Json → String
  | Json.null => "null"
  | Json.bool true => "true"
  | Json.bool false => "false"
  | Json.num n => toString n
  | Json.str s => "\"" ++ escapeStr s ++ "\""
  | Json.arr xs => "[" ++ dumpsArr xs ++ "]"
  | Json.obj kvs => "\x7b" ++ dumpsObj kvs ++ "\x7d"

/-- Comma-separated serialization of array elements. -/
def dumpsArr : List Json → String
  | [] => ""
  | [x] => dumps x
  | x :: y :: rest => dumps x ++ ", " ++ dumpsArr (y :: rest)

/-- Comma-separated serialization of object entries. -/
def dumpsObj : List (String × Json) → String
  | [] => ""
  | [(k, v)] => "\"" ++ escapeStr k ++ "\": " ++ dumps v
  | (k, v) :: e :: rest =>
      "\"" ++ escapeStr k ++ "\": " ++ dumps v ++ ", " ++ dumpsObj (e :: rest)

end

/-- Whether `pat` occurs as a contiguous run of `hay`. -/
def containsSub (pat : List Char) : List Char → Bool
  | [] => pat.isEmpty
  | c :: t => pat.isPrefixOf (c :: t) || containsSub pat t

/-- Substring test on strings. -/
def strContains (hay pat : String) : Bool :=
  containsSub pat.data hay.data

/-- The date defaulting/parsing of `create_timeentry` (lines 204-207):
`None` becomes today's date, a string goes through `strptime`. -/
def resolveDateOrToday (today : Date) : Option PyDateArg → Except PyErr Date
  | Option.none => Except.ok today
  | some a => resolveArg a

/-- `ClickTime.create_timeentry` (lines 200-224) up to the POST: the
key/value pairs of the dict passed to `json.dumps`, or the error raised
while building it.  `today` models `datetime.datetime.today()`, `hoursVal`
the value `float(hours)` (serialized but never inspected), `break_time` the
optional `BreakTime` value. -/
def create_timeentry_body (today : Date) (job_id task_id hoursVal : Json)
    (date : Option PyDateArg) (comment : Option String)
    (break_time : Option Json) : Except PyErr (List (String × Json)) := do
  let dt ← resolveDateOrToday today date
  let ds ← strftimeYMD dt
  let body := [("JobID", job_id), ("TaskID", task_id), ("Date", Json.str ds),
               ("Hours", hoursVal), ("Comment", Json.str "")]
  let body := match comment with
    | some c => dictSet body "Comment" (Json.str c)
    | Option.none => body
  let body := match break_time with
    | some b => dictSet body "BreakTime" b
    | Option.none => body
  Except.ok body

/-- The serialized POST body `json.dumps(data)` of `create_timeentry`. -/
def create_timeentry_json (today : Date) (job_id task_id hoursVal : Json)
    (date : Option PyDateArg) (comment : Option String)
    (break_time : Option Json) : Except PyErr String :=
  Except.map (fun b => dumps (Json.obj b))
    (create_timeentry_body today job_id task_id hoursVal date comment break_time)

/-- Whether a decoded element carries the given field (an object with that
key). -/
def hasField (x : Json) (field : String) : Bool :=
  match getField x field with
  | Except.ok _ => true
  | Except.error _ => false

/- ### Helper lemmas -/

theorem lookup_map_pyStr (s : List (String × Json)) (k : String) :
    (initAttrs s).lookup k = Option.map pyStr (s.lookup k) := by
  induction s with
  | nil => rfl
  | cons a t ih =>
      obtain ⟨ka, va⟩ := a
      simp only [initAttrs, List.map_cons, List.lookup_cons]
      by_cases h : k = ka
      · simp [h]
      · have hb : (k == ka) = false := beq_false_of_ne h
        simp only [hb]
        exact ih

theorem lookup_overwrite {α : Type} (d : List (String × α)) (k : String) (v : α)
    (hs : (d.lookup k).isSome = true) :
    (d.map (fun kv => if kv.1 = k then (k, v) else kv)).lookup k = some v := by
  induction d with
  | nil => simp at hs
  | cons a t ih =>
      obtain ⟨ka, va⟩ := a
      by_cases h : ka = k
      · subst h
        simp [List.lookup_cons]
      · have hb : (k == ka) = false := beq_false_of_ne (fun e => h e.symm)
        simp only [List.lookup_cons, hb] at hs
        simp only [List.map_cons, if_neg h, List.lookup_cons, hb]
        exact ih hs

theorem lookup_overwrite_other {α : Type} (d : List (String × α)) (k k' : String)
    (v : α) (hne : k' ≠ k) :
    (d.map (fun kv => if kv.1 = k then (k, v) else kv)).lookup k' = d.lookup k' := by
  induction d with
  | nil => simp
  | cons a t ih =>
      obtain ⟨ka, va⟩ := a
      by_cases h : ka = k
      · subst h
        have hb : (k' == ka) = false := beq_false_of_ne hne
        simp only [List.map_cons, eq_self_iff_true, if_true, List.lookup_cons, hb]
        exact ih
      · simp only [List.map_cons, if_neg h, List.lookup_cons]
        by_cases h2 : k' = ka
        · simp only [h2, beq_self_eq_true]
        · have hb : (k' == ka) = false := beq_false_of_ne h2
          simp only [hb]
          exact ih

theorem lookup_dictSet_self {α : Type} (d : List (String × α)) (k : String) (v : α) :
    (dictSet d k v).lookup k = some v := by
  unfold dictSet
  split
  case isTrue hs => exact lookup_overwrite d k v hs
  case isFalse hs =>
    rw [List.lookup_append]
    have hnone : d.lookup k = none := by
      cases hd : d.lookup k with
      | none => rfl
      | some x => exact absurd (by rw [hd]; rfl) hs
    simp [hnone]

theorem lookup_dictSet_other {α : Type} (d : List (String × α)) (k k' : String)
    (v : α) (hne : k' ≠ k) : (dictSet d k v).lookup k' = d.lookup k' := by
  unfold dictSet
  split
  case isTrue hs => exact lookup_overwrite_other d k k' v hne
  case isFalse hs =>
    rw [List.lookup_append]
    cases hd : d.lookup k' with
    | some x => rfl
    | none =>
        have hb : (k' == k) = false := beq_false_of_ne hne
        simp [List.lookup_cons, hb]

theorem dictUpdate_single {α : Type} (d : List (String × α)) (k : String) (v : α) :
    dictUpdate d [(k, v)] = dictSet d k v := rfl

theorem filter_by_spec (field : String) (idv : Json) (data : List Json)
    (h : data.all (fun x => hasField x field) = true) :
    ∃ l, filter_by field idv data = Except.ok l ∧ l.length ≤ 1 ∧
      (∀ x ∈ l, getField x field = Except.ok idv ∧ x ∈ data) ∧
      ((∀ x ∈ data, getField x field ≠ Except.ok idv) → l = []) := by
  induction data with
  | nil => exact ⟨[], rfl, by simp, by simp, fun _ => rfl⟩
  | cons c rest ih =>
      simp only [List.all_cons, Bool.and_eq_true] at h
      obtain ⟨hc, hrest⟩ := h
      obtain ⟨v, hv⟩ : ∃ v, getField c field = Except.ok v := by
        unfold hasField at hc
        split at hc
        case h_1 x heq => exact ⟨x, heq⟩
        case h_2 => cases hc
      by_cases hvi : v = idv
      · subst hvi
        refine ⟨[c], by simp [filter_by, hv], by simp, ?_, ?_⟩
        · intro x hx
          simp only [List.mem_singleton] at hx
          subst hx
          exact ⟨hv, by simp⟩
        · intro hn
          exact absurd hv (hn c (by simp))
      · obtain ⟨l, hl, hlen, hmem, hempty⟩ := ih hrest
        refine ⟨l, ?_, hlen, ?_, ?_⟩
        · simp [filter_by, hv, hvi, hl]
        · intro x hx
          obtain ⟨h1, h2⟩ := hmem x hx
          exact ⟨h1, by simp [h2]⟩
        · intro hn
          exact hempty (fun x hx => hn x (by simp [hx]))

theorem isDigit_toNat {c : Char} (h : c.isDigit = true) :
    48 ≤ c.toNat ∧ c.toNat ≤ 57 := by
  simp only [Char.isDigit, Bool.and_eq_true, decide_eq_true_eq, ge_iff_le] at h
  obtain ⟨h1, h2⟩ := h
  exact ⟨UInt32.le_def.mp h1, UInt32.le_def.mp h2⟩

theorem digitVal_lt {c : Char} (h : c.isDigit = true) : digitVal c < 10 := by
  obtain ⟨h1, h2⟩ := isDigit_toNat h
  unfold digitVal; omega

theorem digitChar_eq {c : Char} {n : Nat} (h : c.isDigit = true)
    (hn : n % 10 = digitVal c) : digitChar n = c := by
  obtain ⟨h1, h2⟩ := isDigit_toNat h
  have hv : 48 + n % 10 = c.toNat := by unfold digitVal at hn; omega
  unfold digitChar
  rw [hv, Char.ofNat_toNat]

theorem strptime_strftime_roundtrip (s : String) (dt : Date)
    (hp : strptimeYMD s = Except.ok dt) (hy : 1900 ≤ dt.y) :
    strftimeYMD dt = Except.ok s := by
  unfold strptimeYMD at hp
  split at hp
  case _ a b c d e f g h heq =>
    split at hp
    case isTrue hdig =>
      simp only [Bool.and_eq_true] at hdig
      obtain ⟨⟨⟨⟨⟨⟨⟨ha, hb⟩, hc⟩, hd⟩, he⟩, hf⟩, hg⟩, hh⟩ := hdig
      simp only [] at hp
      split at hp
      case isTrue hrange =>
        injection hp with hp
        subst hp
        have hva := digitVal_lt ha
        have hvb := digitVal_lt hb
        have hvc := digitVal_lt hc
        have hvd := digitVal_lt hd
        have hve := digitVal_lt he
        have hvf := digitVal_lt hf
        have hvg := digitVal_lt hg
        have hvh := digitVal_lt hh
        unfold strftimeYMD
        rw [if_neg (by omega)]
        have hs : s = String.mk [a, b, c, d, e, f, g, h] := by
          cases s with
          | mk data => simp_all
        rw [hs]
        refine congrArg Except.ok (String.ext ?_)
        simp only [String.data_append, pad4, pad2]
        simp only [List.cons_append, List.nil_append, List.cons.injEq, and_true]
        exact ⟨digitChar_eq ha (by omega), digitChar_eq hb (by omega),
               digitChar_eq hc (by omega), digitChar_eq hd (by omega),
               digitChar_eq he (by omega), digitChar_eq hf (by omega),
               digitChar_eq hg (by omega), digitChar_eq hh (by omega)⟩
      case isFalse hr => exact absurd hp (by simp)
    case isFalse hdi => exact absurd hp (by simp)
  case _ hne => exact absurd hp (by simp)

theorem except_bind_ok {ε α β : Type} (a : α) (f : α → Except ε β) :
    (Except.ok (ε := ε) a >>= f) = f a := rfl

theorem except_bind_error {ε α β : Type} (e : ε) (f : α → Except ε β) :
    (Except.error (α := α) e >>= f) = Except.error e := rfl

theorem validArg_elim {a : PyDateArg} (h : validArg a = true) :
    ∃ d, resolveArg a = Except.ok d ∧ 1900 ≤ d.y := by
  unfold validArg at h
  split at h
  case h_1 d heq => exact ⟨d, heq, by simpa using h⟩
  case h_2 => cases h

theorem strftime_ok {d : Date} (hy : 1900 ≤ d.y) :
    strftimeYMD d = Except.ok (pad4 d.y ++ pad2 d.m ++ pad2 d.d) := by
  unfold strftimeYMD
  rw [if_neg (by omega)]

/- ### Claim theorems -/

/-- C3: the spec says `_parse` returns the supplied default on malformed JSON
and never raises; but `logging` is imported only under `__main__`
(clicktime.py line 238), so in the library configuration the except-branch
raises `NameError` instead of returning the default.  (The default is
returned only when the module runs as a script.) -/
theorem parse_malformed_namerror (loads : String → Option Json) (s : String)
    (dflt : Json) (h : loads s = Option.none) :
    py_parse loads false s dflt = Except.error (PyErr.nameError "logging") ∧
    py_parse loads true s dflt = Except.ok dflt := by
  constructor <;> simp [py_parse, h]

theorem parse_malformed_namerror_witness :
    (fun _ : String => (Option.none : Option Json)) "not json" = Option.none ∧
    (py_parse (fun _ => Option.none) false "not json" (Json.arr [])
        = Except.error (PyErr.nameError "logging") ∧
     py_parse (fun _ => Option.none) true "not json" (Json.arr [])
        = Except.ok (Json.arr [])) :=
  ⟨rfl, parse_malformed_namerror (fun _ => Option.none) "not json" (Json.arr []) rfl⟩

/-- C4: construction fails with the `StandardError` exactly when the parsed
session is `None` or lacks a `CompanyID` key; on success the attribute map
is exactly the session pairs with values string-coerced (witnessed
extensionally: looking up any key gives the string-coerced session value). -/
theorem init_attrs_spec (s : List (String × Json)) (k : String) :
    ct_init Option.none
        = Except.error (PyErr.standardError "Failure to establish session information") ∧
    ((∃ e, ct_init (some s) = Except.error e) ↔ dictGet s "CompanyID" = Option.none) ∧
    (ct_init (some s) = Except.ok (initAttrs s) ↔ (dictGet s "CompanyID").isSome = true) ∧
    (initAttrs s).lookup k = Option.map pyStr (s.lookup k) := by
  refine ⟨rfl, ?_, ?_, lookup_map_pyStr s k⟩
  · unfold ct_init
    cases hc : (dictGet s "CompanyID") with
    | none => simp [hc]
    | some v => simp [hc]
  · unfold ct_init
    cases hc : (dictGet s "CompanyID") with
    | none => simp [hc]
    | some v => simp [hc]

/-- C6: `user` always raises `TypeError`: the URL expression
`"Companies/%s/Users/" % (company_id, user_id)` feeds a 2-tuple to a format
string with a single `%s`, so no request is ever issued and no parsed body
is ever returned.  (The claim follows the spec's endpoint table; the code as
written cannot reach the network.) -/
theorem user_url_always_typeerror (selfCID selfUID : String)
    (company_id user_id : Option String) :
    user_url selfCID selfUID company_id user_id = Except.error PyErr.typeError := rfl

/-- C8: the CLI `create_timeentry` dispatch re-checks `len(jobs)` where it
should check `len(tasks)` (clicktime.py lines 296-298).  With exactly one
job match and zero task matches it raises `IndexError` instead of the
claimed parser error; with multiple task matches it silently uses the first
instead of erroring.  The job-side checks do behave as claimed. -/
theorem cli_resolve_task_check_bug :
    cli_resolve [Json.obj [("JobID", Json.str "J")]] []
        = Except.error (CliErr.pyErr PyErr.indexError) ∧
    cli_resolve [Json.obj [("JobID", Json.str "J")]]
        [Json.obj [("TaskID", Json.str "T1")], Json.obj [("TaskID", Json.str "T2")]]
        = Except.ok (Json.str "J", Json.str "T1") ∧
    cli_resolve [] [Json.obj [("TaskID", Json.str "T1")]]
        = Except.error (CliErr.parserError "Could not find job with number") ∧
    cli_resolve [Json.obj [("JobID", Json.str "J1")], Json.obj [("JobID", Json.str "J2")]]
        [Json.obj [("TaskID", Json.str "T1")]]
        = Except.error (CliErr.parserError "Multiple jobs with number") :=
  ⟨rfl, rfl, rfl, rfl⟩

/-- C9 counterexample: passing an *empty* headers mapping falsifies the
claim as stated: a mapping is passed, yet (because `if headers:` tests
truthiness) it is not mutated — no Authorization entry is inserted into it —
and a fresh copy of the stored headers is used instead. -/
theorem get_headers_empty_mapping :
    get_headers [("Authorization", "Basic dXNlcjpwYXNz")] (some [])
        = ([("Authorization", "Basic dXNlcjpwYXNz")], some []) := rfl

/-- C9 amended: when the caller passes a *non-empty* headers mapping, that
mapping is updated in place (the result dict and the caller's dict are the
same object), the stored Authorization header overwrites any caller entry
under that key, other caller entries survive, and `_post` additionally sets
`content-type`; with no mapping, or an empty one, a fresh copy of the stored
headers is used and the caller's mapping stays untouched. -/
theorem headers_mutation_amended (auth : String) (h : List (String × String))
    (k : String) (hne : h ≠ []) (hk : k ≠ "Authorization") :
    get_headers [("Authorization", auth)] (some h)
        = (dictSet h "Authorization" auth, some (dictSet h "Authorization" auth)) ∧
    (dictSet h "Authorization" auth).lookup "Authorization" = some auth ∧
    (dictSet h "Authorization" auth).lookup k = h.lookup k ∧
    post_headers [("Authorization", auth)] (some h)
        = (dictSet (dictSet h "Authorization" auth) "content-type" postContentType,
           some (dictSet (dictSet h "Authorization" auth) "content-type" postContentType)) ∧
    (dictSet (dictSet h "Authorization" auth) "content-type" postContentType).lookup
        "content-type" = some postContentType ∧
    (dictSet (dictSet h "Authorization" auth) "content-type" postContentType).lookup
        "Authorization" = some auth ∧
    get_headers [("Authorization", auth)] Option.none
        = ([("Authorization", auth)], Option.none) ∧
    get_headers [("Authorization", auth)] (some [])
        = ([("Authorization", auth)], some []) := by
  have hE : h.isEmpty = false := by
    cases h with
    | nil => exact absurd rfl hne
    | cons a t => rfl
  refine ⟨?_, lookup_dictSet_self h "Authorization" auth,
          lookup_dictSet_other h "Authorization" k auth hk, ?_,
          lookup_dictSet_self (dictSet h "Authorization" auth) "content-type" postContentType,
          ?_, rfl, rfl⟩
  · simp [get_headers, hE, dictUpdate_single]
  · simp [post_headers, hE, dictUpdate_single]
  · rw [lookup_dictSet_other (dictSet h "Authorization" auth) "content-type"
        "Authorization" postContentType (by decide)]
    exact lookup_dictSet_self h "Authorization" auth

theorem headers_mutation_amended_witness :
    ([("X-Custom", "1"), ("Authorization", "old")] : List (String × String)) ≠ [] ∧
    ("X-Custom" : String) ≠ "Authorization" ∧
    (get_headers [("Authorization", "Basic abc")]
        (some [("X-Custom", "1"), ("Authorization", "old")])
        = (dictSet [("X-Custom", "1"), ("Authorization", "old")] "Authorization" "Basic abc",
           some (dictSet [("X-Custom", "1"), ("Authorization", "old")] "Authorization" "Basic abc")) ∧
     (dictSet [("X-Custom", "1"), ("Authorization", "old")] "Authorization"
        "Basic abc").lookup "Authorization" = some "Basic abc") :=
  ⟨by decide, by decide,
   (headers_mutation_amended "Basic abc" [("X-Custom", "1"), ("Authorization", "old")]
      "X-Custom" (by decide) (by decide)).1,
   (headers_mutation_amended "Basic abc" [("X-Custom", "1"), ("Authorization", "old")]
      "X-Custom" (by decide) (by decide)).2.1⟩

/-- C10: the `withChildIDs=true` query parameter is appended exactly when
`with_child_ids == True` holds in Python's `==` sense; values that are
truthy but not equal to `True` (the integer 2, a non-empty string) yield the
bare URL, while the integer 1 — which does compare equal to `True` in
Python — yields the parameter. -/
theorem jobs_url_withChildIDs (cid uid : String) (v : PyVal) :
    (jobs_url cid uid v = jobs_base cid uid ++ "?withChildIDs=true"
        ↔ pyEq v (PyVal.bool true) = true) ∧
    (jobs_url cid uid v = jobs_base cid uid ↔ pyEq v (PyVal.bool true) = false) ∧
    pyEq (PyVal.bool true) (PyVal.bool true) = true ∧
    pyEq (PyVal.int 1) (PyVal.bool true) = true ∧
    pyEq (PyVal.int 2) (PyVal.bool true) = false ∧
    pyEq (PyVal.str "x") (PyVal.bool true) = false ∧
    pyEq PyVal.none (PyVal.bool true) = false := by
  have hlen : jobs_base cid uid ++ "?withChildIDs=true" ≠ jobs_base cid uid := by
    intro hcontra
    have h2 := congrArg (fun t : String => t.data.length) hcontra
    have h18 : ("?withChildIDs=true" : String).data.length = 18 := rfl
    simp only [String.data_append, List.length_append, h18] at h2
    omega
  refine ⟨?_, ?_, rfl, rfl, rfl, rfl, rfl⟩
  · cases hp : pyEq v (PyVal.bool true) with
    | true => simp [jobs_url, hp]
    | false =>
        simp only [jobs_url, hp, Bool.false_eq_true, if_false, iff_false]
        exact fun e => hlen e.symm
  · cases hp : pyEq v (PyVal.bool true) with
    | true =>
        simp only [jobs_url, hp, if_true]
        exact iff_of_false hlen (by simp)
    | false => simp [jobs_url, hp]

/-- C1: for collections whose elements carry the identifying field,
`clients`/`jobs`/`tasks` with no identifier return the full parsed
collection; with an identifier they return a list of length at most 1 whose
sole element (if any) has the identifying field equal to the identifier, and
an identifier matching no element yields the empty list — no exception. -/
theorem filter_lookup_spec (dataC dataJ dataT : List Json) (ic ij it : Json)
    (hC : dataC.all (fun x => hasField x "ClientID") = true)
    (hJ : dataJ.all (fun x => hasField x "Number") = true)
    (hT : dataT.all (fun x => hasField x "Code") = true) :
    clients dataC Option.none = Except.ok dataC ∧
    jobs dataJ Option.none = Except.ok dataJ ∧
    tasks dataT Option.none = Except.ok dataT ∧
    (∃ l, clients dataC (some ic) = Except.ok l ∧ l.length ≤ 1 ∧
        (∀ x ∈ l, getField x "ClientID" = Except.ok ic) ∧
        ((∀ x ∈ dataC, getField x "ClientID" ≠ Except.ok ic) → l = [])) ∧
    (∃ l, jobs dataJ (some ij) = Except.ok l ∧ l.length ≤ 1 ∧
        (∀ x ∈ l, getField x "Number" = Except.ok ij) ∧
        ((∀ x ∈ dataJ, getField x "Number" ≠ Except.ok ij) → l = [])) ∧
    (∃ l, tasks dataT (some it) = Except.ok l ∧ l.length ≤ 1 ∧
        (∀ x ∈ l, getField x "Code" = Except.ok it) ∧
        ((∀ x ∈ dataT, getField x "Code" ≠ Except.ok it) → l = [])) := by
  refine ⟨rfl, rfl, rfl, ?_, ?_, ?_⟩
  · obtain ⟨l, h1, h2, h3, h4⟩ := filter_by_spec "ClientID" ic dataC hC
    exact ⟨l, h1, h2, fun x hx => (h3 x hx).1, h4⟩
  · obtain ⟨l, h1, h2, h3, h4⟩ := filter_by_spec "Number" ij dataJ hJ
    exact ⟨l, h1, h2, fun x hx => (h3 x hx).1, h4⟩
  · obtain ⟨l, h1, h2, h3, h4⟩ := filter_by_spec "Code" it dataT hT
    exact ⟨l, h1, h2, fun x hx => (h3 x hx).1, h4⟩

theorem filter_lookup_spec_witness :
    ([Json.obj [("ClientID", Json.str "c1")]].all (fun x => hasField x "ClientID") = true) ∧
    ([Json.obj [("Number", Json.str "n1")]].all (fun x => hasField x "Number") = true) ∧
    (([] : List Json).all (fun x => hasField x "Code") = true) ∧
    (∃ l, clients [Json.obj [("ClientID", Json.str "c1")]] (some (Json.str "c1"))
        = Except.ok l ∧ l.length ≤ 1 ∧
        (∀ x ∈ l, getField x "ClientID" = Except.ok (Json.str "c1")) ∧
        ((∀ x ∈ [Json.obj [("ClientID", Json.str "c1")]],
            getField x "ClientID" ≠ Except.ok (Json.str "c1")) → l = [])) :=
  ⟨by decide, by decide, by decide,
   (filter_lookup_spec [Json.obj [("ClientID", Json.str "c1")]]
      [Json.obj [("Number", Json.str "n1")]] [] (Json.str "c1") (Json.str "n0")
      (Json.str "t0") (by decide) (by decide) (by decide)).2.2.2.1⟩

/-- C2: over the documented input domain (valid `YYYYMMDD` strings or date
values), `timeentires` raises `ValueError` exactly when an end date is
given without a start date or when both are given and the range exceeds 7
days; the error arises while the URL is built, before `_get` runs. -/
theorem timeentires_validation (cid uid : String) (sa ea : Option PyDateArg)
    (hs : Option.all validArg sa = true) (he : Option.all validArg ea = true) :
    (timeentires_url cid uid sa ea = Except.error PyErr.valueError
        ↔ timeentriesRaisesSpec sa ea = true) ∧
    ((∃ u, timeentires_url cid uid sa ea = Except.ok u)
        ↔ timeentriesRaisesSpec sa ea = false) := by
  cases sa with
  | none =>
      cases ea with
      | none =>
          constructor
          · simp [timeentires_url, timeentriesRaisesSpec, except_bind_ok]
          · exact iff_of_true ⟨jobs_base cid uid, rfl⟩ rfl
      | some b =>
          simp only [Option.all] at he
          obtain ⟨db, hdb, hyb⟩ := validArg_elim he
          have hurl : timeentires_url cid uid Option.none (some b)
              = Except.error PyErr.valueError := by
            simp [timeentires_url, hdb, Except.map, except_bind_ok]
          constructor
          · simp [hurl, timeentriesRaisesSpec]
          · simp [hurl, timeentriesRaisesSpec]
  | some a =>
      simp only [Option.all] at hs
      obtain ⟨da, hda, hya⟩ := validArg_elim hs
      cases ea with
      | none =>
          have hurl : timeentires_url cid uid (some a) Option.none
              = Except.ok (jobs_base cid uid ++ "?date="
                  ++ (pad4 da.y ++ pad2 da.m ++ pad2 da.d)) := by
            simp [timeentires_url, hda, Except.map, except_bind_ok, strftime_ok hya]
          constructor
          · simp [hurl, timeentriesRaisesSpec]
          · exact iff_of_true ⟨_, hurl⟩ rfl
      | some b =>
          simp only [Option.all] at he
          obtain ⟨db, hdb, hyb⟩ := validArg_elim he
          by_cases hgt : toDays db - toDays da > (7 : Int)
          · have hurl : timeentires_url cid uid (some a) (some b)
                = Except.error PyErr.valueError := by
              simp [timeentires_url, hda, hdb, Except.map, except_bind_ok, if_pos hgt]
            constructor
            · simp [hurl, timeentriesRaisesSpec, hda, hdb, hgt]
            · simp [hurl, timeentriesRaisesSpec, hda, hdb, hgt]
          · have hurl : timeentires_url cid uid (some a) (some b)
                = Except.ok (jobs_base cid uid ++ "?startdate="
                    ++ (pad4 da.y ++ pad2 da.m ++ pad2 da.d) ++ "&enddate="
                    ++ (pad4 db.y ++ pad2 db.m ++ pad2 db.d)) := by
              simp [timeentires_url, hda, hdb, Except.map, except_bind_ok,
                    if_neg hgt, strftime_ok hya, strftime_ok hyb]
            constructor
            · simp [hurl, timeentriesRaisesSpec, hda, hdb, hgt]
            · exact iff_of_true ⟨_, hurl⟩ (by simp [timeentriesRaisesSpec, hda, hdb, hgt])

theorem timeentires_validation_witness :
    Option.all validArg (some (PyDateArg.str "20230101")) = true ∧
    Option.all validArg (some (PyDateArg.str "20230109")) = true ∧
    (timeentires_url "C" "U" (some (PyDateArg.str "20230101"))
        (some (PyDateArg.str "20230109")) = Except.error PyErr.valueError
      ↔ timeentriesRaisesSpec (some (PyDateArg.str "20230101"))
          (some (PyDateArg.str "20230109")) = true) :=
  ⟨by decide, by decide,
   (timeentires_validation "C" "U" (some (PyDateArg.str "20230101"))
      (some (PyDateArg.str "20230109")) (by decide) (by decide)).1⟩

/-- C7: the time-entry query URL is built on the `.../Jobs` endpoint: no
dates give the bare URL; a start date alone appends `?date=YYYYMMDD`; start
and end within 7 days append `?startdate=...&enddate=...`; and a date
supplied as a `YYYYMMDD` string is re-serialized to the identical string on
the wire. -/
theorem timeentires_url_shapes (cid uid : String) (a b : PyDateArg)
    (da db : Date) (s : String) (dt : Date)
    (hda : resolveArg a = Except.ok da) (hya : 1900 ≤ da.y)
    (hdb : resolveArg b = Except.ok db) (hyb : 1900 ≤ db.y)
    (hrange : toDays db - toDays da ≤ 7)
    (hp : strptimeYMD s = Except.ok dt) (hy : 1900 ≤ dt.y) :
    timeentires_url cid uid Option.none Option.none = Except.ok (jobs_base cid uid) ∧
    timeentires_url cid uid (some a) Option.none
      = Except.ok (jobs_base cid uid ++ "?date="
          ++ (pad4 da.y ++ pad2 da.m ++ pad2 da.d)) ∧
    timeentires_url cid uid (some a) (some b)
      = Except.ok (jobs_base cid uid ++ "?startdate="
          ++ (pad4 da.y ++ pad2 da.m ++ pad2 da.d) ++ "&enddate="
          ++ (pad4 db.y ++ pad2 db.m ++ pad2 db.d)) ∧
    timeentires_url cid uid (some (PyDateArg.str s)) Option.none
      = Except.ok (jobs_base cid uid ++ "?date=" ++ s) := by
  refine ⟨rfl, ?_, ?_, ?_⟩
  · simp [timeentires_url, hda, Except.map, except_bind_ok, strftime_ok hya]
  · simp [timeentires_url, hda, hdb, Except.map, except_bind_ok,
          if_neg (by omega : ¬ toDays db - toDays da > (7 : Int)),
          strftime_ok hya, strftime_ok hyb]
  · have h1 : resolveArg (PyDateArg.str s) = Except.ok dt := hp
    have h2 := strptime_strftime_roundtrip s dt hp hy
    simp [timeentires_url, h1, h2, Except.map, except_bind_ok]

theorem timeentires_url_shapes_witness :
    resolveArg (PyDateArg.str "20230101") = Except.ok ⟨2023, 1, 1⟩ ∧
    (1900 ≤ (2023 : Nat)) ∧
    resolveArg (PyDateArg.str "20230108") = Except.ok ⟨2023, 1, 8⟩ ∧
    toDays ⟨2023, 1, 8⟩ - toDays ⟨2023, 1, 1⟩ ≤ 7 ∧
    strptimeYMD "20230115" = Except.ok ⟨2023, 1, 15⟩ ∧
    (timeentires_url "C" "U" (some (PyDateArg.str "20230101"))
        (some (PyDateArg.str "20230108"))
      = Except.ok (jobs_base "C" "U" ++ "?startdate="
          ++ (pad4 2023 ++ pad2 1 ++ pad2 1) ++ "&enddate="
          ++ (pad4 2023 ++ pad2 1 ++ pad2 8)) ∧
     timeentires_url "C" "U" (some (PyDateArg.str "20230115")) Option.none
      = Except.ok (jobs_base "C" "U" ++ "?date=" ++ "20230115")) :=
  ⟨rfl, by decide, rfl, by decide, rfl,
   (timeentires_url_shapes "C" "U" (PyDateArg.str "20230101") (PyDateArg.str "20230108")
      ⟨2023, 1, 1⟩ ⟨2023, 1, 8⟩ "20230115" ⟨2023, 1, 15⟩ rfl (by decide) rfl (by decide)
      (by decide) rfl (by decide)).2.2.1,
   (timeentires_url_shapes "C" "U" (PyDateArg.str "20230101") (PyDateArg.str "20230108")
      ⟨2023, 1, 1⟩ ⟨2023, 1, 8⟩ "20230115" ⟨2023, 1, 15⟩ rfl (by decide) rfl (by decide)
      (by decide) rfl (by decide)).2.2.2⟩

theorem create_body_ok (today : Date) (job_id task_id hoursVal : Json)
    (dateArg : Option PyDateArg) (comment : Option String) (break_time : Option Json)
    (dres : Date)
    (hres : resolveDateOrToday today dateArg = Except.ok dres)
    (hy : 1900 ≤ dres.y) :
    ∃ body, create_timeentry_body today job_id task_id hoursVal dateArg comment break_time
        = Except.ok body ∧
      body.lookup "Date" = some (Json.str (pad4 dres.y ++ pad2 dres.m ++ pad2 dres.d)) ∧
      body.lookup "Comment" = some (Json.str (comment.getD "")) := by
  unfold create_timeentry_body
  rw [hres, except_bind_ok, strftime_ok hy, except_bind_ok]
  cases comment with
  | none =>
      cases break_time with
      | none => exact ⟨_, rfl, rfl, rfl⟩
      | some b =>
          refine ⟨_, rfl, ?_, ?_⟩
          · rw [lookup_dictSet_other _ "BreakTime" "Date" b (by decide)]
            rfl
          · rw [lookup_dictSet_other _ "BreakTime" "Comment" b (by decide)]
            rfl
  | some c =>
      cases break_time with
      | none =>
          refine ⟨_, rfl, ?_, ?_⟩
          · rw [lookup_dictSet_other _ "Comment" "Date" (Json.str c) (by decide)]
            rfl
          · exact lookup_dictSet_self _ "Comment" (Json.str c)
      | some b =>
          refine ⟨_, rfl, ?_, ?_⟩
          · rw [lookup_dictSet_other _ "BreakTime" "Date" b (by decide),
                lookup_dictSet_other _ "Comment" "Date" (Json.str c) (by decide)]
            rfl
          · rw [lookup_dictSet_other _ "BreakTime" "Comment" b (by decide)]
            exact lookup_dictSet_self _ "Comment" (Json.str c)

theorem strftime_output_length {d : Date} {ds : String}
    (h : strftimeYMD d = Except.ok ds) : ds.length = 8 := by
  unfold strftimeYMD at h
  split at h
  case isTrue => cases h
  case isFalse =>
    injection h with h
    subst h
    rfl

/-- C5: the serialized time-entry body always carries a `Comment` entry (the
given comment, or the empty string when none is given) and a `Date` entry in
8-character `YYYYMMDD` form (the `strftime("%Y%m%d")` of the given date,
defaulting to today's date when omitted); concretely, `date="20230115"` with
no comment serializes to a JSON body containing `"Date": "20230115"` and
`"Comment": ""`. -/
theorem create_timeentry_fields (today d0 : Date) (job_id task_id hoursVal : Json)
    (a : PyDateArg) (comment : Option String) (break_time : Option Json)
    (hd : resolveArg a = Except.ok d0) (hy : 1900 ≤ d0.y) (hty : 1900 ≤ today.y) :
    (∃ body ds, create_timeentry_body today job_id task_id hoursVal (some a)
          comment break_time = Except.ok body ∧
        strftimeYMD d0 = Except.ok ds ∧ ds.length = 8 ∧
        body.lookup "Date" = some (Json.str ds) ∧
        body.lookup "Comment" = some (Json.str (comment.getD ""))) ∧
    (∃ body ds, create_timeentry_body today job_id task_id hoursVal Option.none
          comment break_time = Except.ok body ∧
        strftimeYMD today = Except.ok ds ∧ ds.length = 8 ∧
        body.lookup "Date" = some (Json.str ds) ∧
        body.lookup "Comment" = some (Json.str (comment.getD ""))) ∧
    (∃ js, create_timeentry_json ⟨2023, 5, 4⟩ (Json.str "J") (Json.str "T")
          (Json.num 8) (some (PyDateArg.str "20230115")) Option.none Option.none
        = Except.ok js ∧
        strContains js "\"Date\": \"20230115\"" = true ∧
        strContains js "\"Comment\": \"\"" = true) := by
  refine ⟨?_, ?_, ?_⟩
  · obtain ⟨body, h1, h2, h3⟩ :=
      create_body_ok today job_id task_id hoursVal (some a) comment break_time d0 hd hy
    exact ⟨body, pad4 d0.y ++ pad2 d0.m ++ pad2 d0.d, h1, strftime_ok hy,
           strftime_output_length (strftime_ok hy), h2, h3⟩
  · obtain ⟨body, h1, h2, h3⟩ :=
      create_body_ok today job_id task_id hoursVal Option.none comment break_time
        today rfl hty
    exact ⟨body, pad4 today.y ++ pad2 today.m ++ pad2 today.d, h1, strftime_ok hty,
           strftime_output_length (strftime_ok hty), h2, h3⟩
  · refine ⟨"\x7b\"JobID\": \"J\", \"TaskID\": \"T\", \"Date\": \"20230115\", \"Hours\": 8, \"Comment\": \"\"\x7d",
           rfl, by decide, by decide⟩

theorem create_timeentry_fields_witness :
    resolveArg (PyDateArg.str "20230115") = Except.ok ⟨2023, 1, 15⟩ ∧
    (1900 ≤ (2023 : Nat)) ∧
    (∃ body ds, create_timeentry_body ⟨2023, 5, 4⟩ (Json.str "J") (Json.str "T")
          (Json.num 8) (some (PyDateArg.str "20230115")) Option.none Option.none
        = Except.ok body ∧
        strftimeYMD ⟨2023, 1, 15⟩ = Except.ok ds ∧ ds.length = 8 ∧
        body.lookup "Date" = some (Json.str ds) ∧
        body.lookup "Comment" = some (Json.str (Option.getD Option.none ""))) :=
  ⟨rfl, by decide,
   (create_timeentry_fields ⟨2023, 5, 4⟩ ⟨2023, 1, 15⟩ (Json.str "J") (Json.str "T")
      (Json.num 8) (PyDateArg.str "20230115") Option.none Option.none rfl
      (by decide) (by decide)).1⟩

end ClickTime
